import Mathlib

/-!
Shallow embedding of `media/libeffects/dynamicsproc/aidl/DynamicsProcessing.cpp`,
the AIDL binding layer of the DynamicsProcessing audio effect.  The file is glue:
UUID-based dispatch (`createEffect`, `queryEffect`), tagged-union parameter
get/set switches, lifecycle management (`open`, `createContext`,
`releaseContext`) and delegation of processing to the DSP engine
(`effectProcessImpl`).  Types that the file only consumes (AIDL parcelables,
the `DynamicsProcessingContext` engine wrapper, the `EffectImpl` base class)
are modelled explicitly; every definition carries the name of the C++ entity
it embeds.
-/

namespace DynamicsProc

/-- `binder_exception_t` codes used by the file. -/
inductive BinderExceptionT where
  | EX_NONE
  | EX_SECURITY
  | EX_BAD_PARCELABLE
  | EX_ILLEGAL_ARGUMENT
  | EX_NULL_POINTER
  | EX_ILLEGAL_STATE
  | EX_UNSUPPORTED_OPERATION
deriving DecidableEq, Repr

/-- `ndk::ScopedAStatus`: either ok or an exception code with a message
(`ScopedAStatus::fromExceptionCodeWithMessage`). -/
inductive ScopedAStatus where
  | ok
  | exWithMessage (code : BinderExceptionT) (msg : String)
deriving DecidableEq, Repr

/-- `RetCode` of the effect-impl headers. -/
inductive RetCode where
  | SUCCESS
  | ERROR_ILLEGAL_PARAMETER
  | ERROR_THREAD
  | ERROR_NULL_POINTER
  | ERROR_ALIGNMENT_ERROR
  | ERROR_BLOCK_SIZE_EXCEED
  | ERROR_EFFECT_LIB_ERROR
deriving DecidableEq, Repr

/-- `aidl::android::hardware::audio::effect::State` of the effect instance. -/
inductive State where
  | INIT
  | IDLE
  | PROCESSING
deriving DecidableEq, Repr

/-- `aidl::android::media::audio::common::PcmType`. -/
inductive PcmType where
  | DEFAULT
  | UINT_8_BIT
  | INT_16_BIT
  | INT_32_BIT
  | FIXED_Q_8_24
  | FLOAT_32_BIT
  | INT_24_BIT
deriving DecidableEq, Repr

/-- `aidl::android::media::audio::common::AudioUuid`. -/
structure AudioUuid where
  timeLow : Nat
  timeMid : Nat
  timeHiAndVersion : Nat
  clockSeq : Nat
  node : List Nat
deriving DecidableEq, Repr

/-- `kDynamicsProcessingTypeUUID` (7261676f-6d75-7369-6364-28e2fd3ac39e),
declared in a header outside this file. -/
def kDynamicsProcessingTypeUUID : AudioUuid :=
  { timeLow := 0x7261676f, timeMid := 0x6d75, timeHiAndVersion := 0x7369,
    clockSeq := 0x6364, node := [0x28, 0xe2, 0xfd, 0x3a, 0xc3, 0x9e] }

/-- `kDynamicsProcessingImplUUID` (e0e6539b-1741-4db3-9d2c-28b57c7d5dcc),
declared in a header outside this file. -/
def kDynamicsProcessingImplUUID : AudioUuid :=
  { timeLow := 0xe0e6539b, timeMid := 0x1741, timeHiAndVersion := 0x4db3,
    clockSeq := 0x9d2c, node := [0x28, 0xb5, 0x7c, 0x7d, 0x5d, 0xcc] }

/-- The pcm-relevant part of `AudioFormatDescription`. -/
structure AudioFormatDescription where
  pcm : PcmType
deriving DecidableEq, Repr

/-- `AudioConfigBase`: sample rate, channel mask and format. -/
structure AudioConfigBase where
  sampleRate : Int
  channelMask : Int
  format : AudioFormatDescription
deriving DecidableEq, Repr

/-- The audio configuration carried in `Parameter::Common::input` and
`Parameter::Common::output`; only `base` is read by this file. -/
structure AudioConfig where
  base : AudioConfigBase
deriving DecidableEq, Repr

/-- `Parameter::Common`. -/
structure ParameterCommon where
  session : Int
  ioHandle : Int
  input : AudioConfig
  output : AudioConfig
deriving DecidableEq, Repr

/-- Opaque payload: AIDL `DynamicsProcessing.EngineArchitecture`; its fields
are defined outside this file and never inspected here. -/
structure EngineArchitecture where
  val : Nat
deriving DecidableEq, Repr

/-- Opaque payload: AIDL `DynamicsProcessing.ChannelConfig`. -/
structure ChannelConfig where
  val : Nat
deriving DecidableEq, Repr

/-- Opaque payload: AIDL `DynamicsProcessing.EqBandConfig`. -/
structure EqBandConfig where
  val : Nat
deriving DecidableEq, Repr

/-- Opaque payload: AIDL `DynamicsProcessing.MbcBandConfig`. -/
structure MbcBandConfig where
  val : Nat
deriving DecidableEq, Repr

/-- Opaque payload: AIDL `DynamicsProcessing.LimiterConfig`. -/
structure LimiterConfig where
  val : Nat
deriving DecidableEq, Repr

/-- Opaque payload: AIDL `DynamicsProcessing.InputGain`. -/
structure InputGain where
  val : Nat
deriving DecidableEq, Repr

/-- Opaque payload: AIDL `VendorExtension`. -/
structure VendorExtension where
  val : Nat
deriving DecidableEq, Repr

/-- The AIDL union `DynamicsProcessing`: one constructor per union tag. -/
inductive DynamicsProcessing where
  | vendorExtension (v : VendorExtension)
  | engineArchitecture (v : EngineArchitecture)
  | preEq (v : List ChannelConfig)
  | postEq (v : List ChannelConfig)
  | preEqBand (v : List EqBandConfig)
  | postEqBand (v : List EqBandConfig)
  | mbc (v : List ChannelConfig)
  | mbcBand (v : List MbcBandConfig)
  | limiter (v : List LimiterConfig)
  | inputGain (v : List InputGain)
deriving DecidableEq, Repr

/-- `DynamicsProcessing::Tag`, the discriminant of the union. -/
inductive DynamicsProcessingTag where
  | vendorExtension
  | engineArchitecture
  | preEq
  | postEq
  | preEqBand
  | postEqBand
  | mbc
  | mbcBand
  | limiter
  | inputGain
deriving DecidableEq, Repr

/-- `DynamicsProcessing::getTag()`. -/
def DynamicsProcessing.getTag : DynamicsProcessing → DynamicsProcessingTag
  | .vendorExtension _ => .vendorExtension
  | .engineArchitecture _ => .engineArchitecture
  | .preEq _ => .preEq
  | .postEq _ => .postEq
  | .preEqBand _ => .preEqBand
  | .postEqBand _ => .postEqBand
  | .mbc _ => .mbc
  | .mbcBand _ => .mbcBand
  | .limiter _ => .limiter
  | .inputGain _ => .inputGain

/-- `DynamicsProcessing::Id`: either a vendor extension id or a common tag. -/
inductive DynamicsProcessingId where
  | vendorExtensionTag (v : VendorExtension)
  | commonTag (t : DynamicsProcessingTag)
deriving DecidableEq, Repr

/-- `Parameter::Id`: the `dynamicsProcessingTag` alternative of the AIDL
union; every other alternative of that union is collapsed into `otherIdTag`
since this file treats them all alike (rejected as `wrongIdTag`). -/
inductive ParameterId where
  | dynamicsProcessingTag (id : DynamicsProcessingId)
  | otherIdTag (n : Nat)
deriving DecidableEq, Repr

/-- `Parameter::Specific`: the `dynamicsProcessing` alternative of the AIDL
union; every other alternative is collapsed into `otherSpecific` since this
file treats them all alike (rejected as `EffectNotSupported`). -/
inductive ParameterSpecific where
  | dynamicsProcessing (dp : DynamicsProcessing)
  | otherSpecific (n : Nat)
deriving DecidableEq, Repr

/-- `Flags::Type`. -/
inductive FlagsType where
  | INSERT
  | AUXILIARY
  | PRE_PROC
  | POST_PROC
deriving DecidableEq, Repr

/-- `Flags::Insert`. -/
inductive FlagsInsert where
  | ANY
  | FIRST
  | LAST
  | EXCLUSIVE
deriving DecidableEq, Repr

/-- `Flags::Volume`. -/
inductive FlagsVolume where
  | NONE
  | CTRL
  | IND
  | MONITOR
deriving DecidableEq, Repr

/-- `Flags` of the effect descriptor (the fields this file initialises). -/
structure Flags where
  type : FlagsType
  insert : FlagsInsert
  volume : FlagsVolume
deriving DecidableEq, Repr

/-- `Descriptor::Identity` (`.common.id`). -/
structure EffectIdentity where
  type : AudioUuid
  uuid : AudioUuid
  proxy : Option AudioUuid
deriving DecidableEq, Repr

/-- `Descriptor::Common`. -/
structure DescriptorCommon where
  id : EffectIdentity
  flags : Flags
  name : String
  implementor : String
deriving DecidableEq, Repr

/-- `DynamicsProcessing::Capability` (min/max cutoff frequency; the C++
fields are `float` holding the integral constants 220 and 20000, modelled
as integers). -/
structure DynamicsProcessingCapability where
  minCutOffFreq : Int
  maxCutOffFreq : Int
deriving DecidableEq, Repr

/-- The `Capability` union: the `dynamicsProcessing` alternative used by this
file; the other alternatives are collapsed into `otherCapability`. -/
inductive Capability where
  | dynamicsProcessing (c : DynamicsProcessingCapability)
  | otherCapability (n : Nat)
deriving DecidableEq, Repr

/-- `Descriptor`. -/
structure Descriptor where
  common : DescriptorCommon
  capability : Capability
deriving DecidableEq, Repr

/-- `DynamicsProcessingImpl::kEffectName`. -/
def kEffectName : String := "DynamicsProcessing"

/-- `DynamicsProcessingImpl::kCapability`. -/
def kCapability : DynamicsProcessingCapability :=
  { minCutOffFreq := 220, maxCutOffFreq := 20000 }

/-- `DynamicsProcessingImpl::kDescriptor`. -/
def kDescriptor : Descriptor :=
  { common := { id := { type := kDynamicsProcessingTypeUUID,
                        uuid := kDynamicsProcessingImplUUID,
                        proxy := none },
                flags := { type := FlagsType.INSERT,
                           insert := FlagsInsert.LAST,
                           volume := FlagsVolume.CTRL },
                name := kEffectName,
                implementor := "The Android Open Source Project" },
    capability := Capability.dynamicsProcessing kCapability }

/-- `IEffect::Status` (the status triple produced by processing). -/
structure EffectStatus where
  status : BinderExceptionT
  fmqConsumed : Int
  fmqProduced : Int
deriving DecidableEq, Repr

/-- Modelled from the spec: `DynamicsProcessingContext`, the wrapper around
the external DSP engine (its implementation lives outside this file; the
spec says the DSP algorithms are external collaborators).  The stored
parameter values stand for the engine's current configuration; the `...Rc`
function fields abstract the engine's validation of each setter's payload;
`enabled`/`bufferCleared` record the observable effect of
`enable`/`disable`/`resetBuffer`; `lvmProcess` abstracts the engine's
processing function over input pointer, output pointer and sample count. -/
structure DynamicsProcessingContext where
  common : ParameterCommon
  engineArchitecture : EngineArchitecture
  preEq : List ChannelConfig
  postEq : List ChannelConfig
  preEqBand : List EqBandConfig
  postEqBand : List EqBandConfig
  mbc : List ChannelConfig
  mbcBand : List MbcBandConfig
  limiter : List LimiterConfig
  inputGain : List InputGain
  enabled : Bool
  bufferCleared : Bool
  engineArchitectureRc : EngineArchitecture → RetCode
  preEqRc : List ChannelConfig → RetCode
  postEqRc : List ChannelConfig → RetCode
  preEqBandRc : List EqBandConfig → RetCode
  postEqBandRc : List EqBandConfig → RetCode
  mbcRc : List ChannelConfig → RetCode
  mbcBandRc : List MbcBandConfig → RetCode
  limiterRc : List LimiterConfig → RetCode
  inputGainRc : List InputGain → RetCode
  lvmProcess : Int → Int → Int → EffectStatus

namespace DynamicsProcessingContext

/-- Modelled from the spec: `DynamicsProcessingContext::setEngineArchitecture`;
the engine validates the payload (abstracted by `engineArchitectureRc`) and
stores it on success. -/
def setEngineArchitecture (c : DynamicsProcessingContext)
    (v : EngineArchitecture) : RetCode × DynamicsProcessingContext :=
  let rc := c.engineArchitectureRc v
  (rc, if rc = RetCode.SUCCESS then { c with engineArchitecture := v } else c)

/-- Modelled from the spec: `DynamicsProcessingContext::setPreEq`. -/
def setPreEq (c : DynamicsProcessingContext)
    (v : List ChannelConfig) : RetCode × DynamicsProcessingContext :=
  let rc := c.preEqRc v
  (rc, if rc = RetCode.SUCCESS then { c with preEq := v } else c)

/-- Modelled from the spec: `DynamicsProcessingContext::setPostEq`. -/
def setPostEq (c : DynamicsProcessingContext)
    (v : List ChannelConfig) : RetCode × DynamicsProcessingContext :=
  let rc := c.postEqRc v
  (rc, if rc = RetCode.SUCCESS then { c with postEq := v } else c)

/-- Modelled from the spec: `DynamicsProcessingContext::setPreEqBand`. -/
def setPreEqBand (c : DynamicsProcessingContext)
    (v : List EqBandConfig) : RetCode × DynamicsProcessingContext :=
  let rc := c.preEqBandRc v
  (rc, if rc = RetCode.SUCCESS then { c with preEqBand := v } else c)

/-- Modelled from the spec: `DynamicsProcessingContext::setPostEqBand`. -/
def setPostEqBand (c : DynamicsProcessingContext)
    (v : List EqBandConfig) : RetCode × DynamicsProcessingContext :=
  let rc := c.postEqBandRc v
  (rc, if rc = RetCode.SUCCESS then { c with postEqBand := v } else c)

/-- Modelled from the spec: `DynamicsProcessingContext::setMbc`. -/
def setMbc (c : DynamicsProcessingContext)
    (v : List ChannelConfig) : RetCode × DynamicsProcessingContext :=
  let rc := c.mbcRc v
  (rc, if rc = RetCode.SUCCESS then { c with mbc := v } else c)

/-- Modelled from the spec: `DynamicsProcessingContext::setMbcBand`. -/
def setMbcBand (c : DynamicsProcessingContext)
    (v : List MbcBandConfig) : RetCode × DynamicsProcessingContext :=
  let rc := c.mbcBandRc v
  (rc, if rc = RetCode.SUCCESS then { c with mbcBand := v } else c)

/-- Modelled from the spec: `DynamicsProcessingContext::setLimiter`. -/
def setLimiter (c : DynamicsProcessingContext)
    (v : List LimiterConfig) : RetCode × DynamicsProcessingContext :=
  let rc := c.limiterRc v
  (rc, if rc = RetCode.SUCCESS then { c with limiter := v } else c)

/-- Modelled from the spec: `DynamicsProcessingContext::setInputGain`. -/
def setInputGain (c : DynamicsProcessingContext)
    (v : List InputGain) : RetCode × DynamicsProcessingContext :=
  let rc := c.inputGainRc v
  (rc, if rc = RetCode.SUCCESS then { c with inputGain := v } else c)

/-- Modelled from the spec: `EffectContext::disable`. -/
def disable (c : DynamicsProcessingContext) : DynamicsProcessingContext :=
  { c with enabled := false }

/-- Modelled from the spec: `EffectContext::resetBuffer`. -/
def resetBuffer (c : DynamicsProcessingContext) : DynamicsProcessingContext :=
  { c with bufferCleared := true }

end DynamicsProcessingContext

/-- Modelled from the spec: the `DynamicsProcessingContext` constructor
(`std::make_shared<DynamicsProcessingContext>(1, common)`), which is outside
this file.  It records the common parameter and starts with a default engine
configuration; the engine's per-setter validation outcomes are abstracted as
always-`SUCCESS` function fields (the real validation lives in the external
DSP library). -/
def mkDynamicsProcessingContext (common : ParameterCommon) :
    DynamicsProcessingContext :=
  { common := common
    engineArchitecture := { val := 0 }
    preEq := []
    postEq := []
    preEqBand := []
    postEqBand := []
    mbc := []
    mbcBand := []
    limiter := []
    inputGain := []
    enabled := false
    bufferCleared := false
    engineArchitectureRc := fun _ => RetCode.SUCCESS
    preEqRc := fun _ => RetCode.SUCCESS
    postEqRc := fun _ => RetCode.SUCCESS
    preEqBandRc := fun _ => RetCode.SUCCESS
    postEqBandRc := fun _ => RetCode.SUCCESS
    mbcRc := fun _ => RetCode.SUCCESS
    mbcBandRc := fun _ => RetCode.SUCCESS
    limiterRc := fun _ => RetCode.SUCCESS
    inputGainRc := fun _ => RetCode.SUCCESS
    lvmProcess := fun _ _ samples =>
      { status := BinderExceptionT.EX_NONE, fmqConsumed := samples,
        fmqProduced := samples } }

/-- The state of a `DynamicsProcessingImpl` instance: `mState` and `mContext`
(inherited from `EffectImpl`). -/
structure DynamicsProcessingImpl where
  mState : State
  mContext : Option DynamicsProcessingContext

/-- A freshly constructed `DynamicsProcessingImpl` (`SharedRefBase::make`):
state `INIT`, no context. -/
def newDynamicsProcessingImpl : DynamicsProcessingImpl :=
  { mState := State.INIT, mContext := none }

/-- `createEffect` (the `extern "C"` entry point).  The `in_impl_uuid` and
`instanceSpp` pointers are modelled as `Option`/`Bool`; the second result is
the instance stored through `*instanceSpp`, `none` when nothing is stored. -/
def createEffect (in_impl_uuid : Option AudioUuid) (instanceSppNonNull : Bool) :
    BinderExceptionT × Option DynamicsProcessingImpl :=
  match in_impl_uuid with
  | none => (BinderExceptionT.EX_ILLEGAL_ARGUMENT, none)
  | some uuid =>
    if uuid ≠ kDynamicsProcessingImplUUID then
      (BinderExceptionT.EX_ILLEGAL_ARGUMENT, none)
    else if instanceSppNonNull then
      (BinderExceptionT.EX_NONE, some newDynamicsProcessingImpl)
    else
      (BinderExceptionT.EX_ILLEGAL_ARGUMENT, none)

/-- `queryEffect` (the `extern "C"` entry point).  The second result is the
descriptor written through `*_aidl_return`, `none` when nothing is written. -/
def queryEffect (in_impl_uuid : Option AudioUuid) :
    BinderExceptionT × Option Descriptor :=
  match in_impl_uuid with
  | none => (BinderExceptionT.EX_ILLEGAL_ARGUMENT, none)
  | some uuid =>
    if uuid ≠ kDynamicsProcessingImplUUID then
      (BinderExceptionT.EX_ILLEGAL_ARGUMENT, none)
    else
      (BinderExceptionT.EX_NONE, some kDescriptor)

/-- Events emitted by `releaseContext`, recording the order of its
side-effecting steps on the shared context. -/
inductive ReleaseEvent where
  | ctxDisabled
  | ctxBufferReset
  | ctxReleased
deriving DecidableEq, Repr

/-- Events emitted by `openImpl`, recording the order of its side-effecting
steps. -/
inductive OpenEvent where
  | contextCreated
  | commonApplied
  | specificApplied
  | stateToIdle
  | fmqDuped
  | workerCreated
deriving DecidableEq, Repr

namespace DynamicsProcessingImpl

/-- `DynamicsProcessingImpl::createContext`: returns the existing context when
one exists, otherwise makes a fresh `DynamicsProcessingContext` from `common`
and stores it in `mContext`.  The first component is the returned shared
pointer (`none` models a null pointer, which `make_shared` never yields). -/
def createContext (s : DynamicsProcessingImpl) (common : ParameterCommon) :
    Option DynamicsProcessingContext × DynamicsProcessingImpl :=
  match s.mContext with
  | some c => (some c, s)
  | none =>
    let c := mkDynamicsProcessingContext common
    (some c, { s with mContext := some c })

/-- `DynamicsProcessingImpl::releaseContext`: when a context exists it is
disabled, its buffer reset, and the shared pointer released; `SUCCESS` is
returned in every case.  The third component is the released context object
as any co-owner of the shared pointer observes it (the shared object
survives `mContext.reset()`); the event list records the order of the
steps. -/
def releaseContext (s : DynamicsProcessingImpl) :
    RetCode × DynamicsProcessingImpl × Option DynamicsProcessingContext ×
      List ReleaseEvent :=
  match s.mContext with
  | none => (RetCode.SUCCESS, s, none, [])
  | some c =>
    (RetCode.SUCCESS, { s with mContext := none },
     some (c.disable.resetBuffer),
     [ReleaseEvent.ctxDisabled, ReleaseEvent.ctxBufferReset,
      ReleaseEvent.ctxReleased])

/-- `DynamicsProcessingImpl::effectProcessImpl`: returns
`{EX_NULL_POINTER, 0, 0}` when the context is null, otherwise delegates to
`mContext->lvmProcess(in, out, samples)`.  The two buffers are modelled by
their pointer values. -/
def effectProcessImpl (s : DynamicsProcessingImpl)
    (inBuf outBuf samples : Int) : EffectStatus :=
  match s.mContext with
  | none =>
    { status := BinderExceptionT.EX_NULL_POINTER, fmqConsumed := 0,
      fmqProduced := 0 }
  | some c => c.lvmProcess inBuf outBuf samples

/-- `DynamicsProcessingImpl::setParameterSpecific`: rejects a non-
`dynamicsProcessing` union, rejects a null context, then forwards the inner
tag's payload to the matching context setter, translating a non-`SUCCESS`
return code into `EX_ILLEGAL_ARGUMENT`; `vendorExtension` is rejected. -/
def setParameterSpecific (s : DynamicsProcessingImpl)
    (specific : ParameterSpecific) :
    ScopedAStatus × DynamicsProcessingImpl :=
  match specific with
  | ParameterSpecific.otherSpecific _ =>
    (ScopedAStatus.exWithMessage BinderExceptionT.EX_ILLEGAL_ARGUMENT
      "EffectNotSupported", s)
  | ParameterSpecific.dynamicsProcessing param =>
    match s.mContext with
    | none =>
      (ScopedAStatus.exWithMessage BinderExceptionT.EX_NULL_POINTER
        "nullContext", s)
    | some c =>
      match param with
      | DynamicsProcessing.engineArchitecture v =>
        let r := c.setEngineArchitecture v
        let s' := { s with mContext := some r.2 }
        if r.1 ≠ RetCode.SUCCESS then
          (ScopedAStatus.exWithMessage BinderExceptionT.EX_ILLEGAL_ARGUMENT
            "setEngineArchitectureFailed", s')
        else (ScopedAStatus.ok, s')
      | DynamicsProcessing.preEq v =>
        let r := c.setPreEq v
        let s' := { s with mContext := some r.2 }
        if r.1 ≠ RetCode.SUCCESS then
          (ScopedAStatus.exWithMessage BinderExceptionT.EX_ILLEGAL_ARGUMENT
            "setPreEqFailed", s')
        else (ScopedAStatus.ok, s')
      | DynamicsProcessing.postEq v =>
        let r := c.setPostEq v
        let s' := { s with mContext := some r.2 }
        if r.1 ≠ RetCode.SUCCESS then
          (ScopedAStatus.exWithMessage BinderExceptionT.EX_ILLEGAL_ARGUMENT
            "setPostEqFailed", s')
        else (ScopedAStatus.ok, s')
      | DynamicsProcessing.preEqBand v =>
        let r := c.setPreEqBand v
        let s' := { s with mContext := some r.2 }
        if r.1 ≠ RetCode.SUCCESS then
          (ScopedAStatus.exWithMessage BinderExceptionT.EX_ILLEGAL_ARGUMENT
            "setPreEqBandFailed", s')
        else (ScopedAStatus.ok, s')
      | DynamicsProcessing.postEqBand v =>
        let r := c.setPostEqBand v
        let s' := { s with mContext := some r.2 }
        if r.1 ≠ RetCode.SUCCESS then
          (ScopedAStatus.exWithMessage BinderExceptionT.EX_ILLEGAL_ARGUMENT
            "setPostEqBandFailed", s')
        else (ScopedAStatus.ok, s')
      | DynamicsProcessing.mbc v =>
        let r := c.setMbc v
        let s' := { s with mContext := some r.2 }
        if r.1 ≠ RetCode.SUCCESS then
          (ScopedAStatus.exWithMessage BinderExceptionT.EX_ILLEGAL_ARGUMENT
            "setMbcFailed", s')
        else (ScopedAStatus.ok, s')
      | DynamicsProcessing.mbcBand v =>
        let r := c.setMbcBand v
        let s' := { s with mContext := some r.2 }
        if r.1 ≠ RetCode.SUCCESS then
          (ScopedAStatus.exWithMessage BinderExceptionT.EX_ILLEGAL_ARGUMENT
            "setMbcBandFailed", s')
        else (ScopedAStatus.ok, s')
      | DynamicsProcessing.limiter v =>
        let r := c.setLimiter v
        let s' := { s with mContext := some r.2 }
        if r.1 ≠ RetCode.SUCCESS then
          (ScopedAStatus.exWithMessage BinderExceptionT.EX_ILLEGAL_ARGUMENT
            "setLimiterFailed", s')
        else (ScopedAStatus.ok, s')
      | DynamicsProcessing.inputGain v =>
        let r := c.setInputGain v
        let s' := { s with mContext := some r.2 }
        if r.1 ≠ RetCode.SUCCESS then
          (ScopedAStatus.exWithMessage BinderExceptionT.EX_ILLEGAL_ARGUMENT
            "setInputGainFailed", s')
        else (ScopedAStatus.ok, s')
      | DynamicsProcessing.vendorExtension _ =>
        (ScopedAStatus.exWithMessage BinderExceptionT.EX_ILLEGAL_ARGUMENT
          "DPVendorExtensionTagNotSupported", s)

/-- `DynamicsProcessingImpl::getParameterDynamicsProcessing`: rejects a null
context, then writes into `*specific` the matching context getter's value
wrapped under the `dynamicsProcessing` tag; `vendorExtension` is rejected.
The second result is the final value of `*specific`. -/
def getParameterDynamicsProcessing (s : DynamicsProcessingImpl)
    (tag : DynamicsProcessingTag) (specific : ParameterSpecific) :
    ScopedAStatus × ParameterSpecific :=
  match s.mContext with
  | none =>
    (ScopedAStatus.exWithMessage BinderExceptionT.EX_NULL_POINTER
      "nullContext", specific)
  | some c =>
    match tag with
    | DynamicsProcessingTag.engineArchitecture =>
      (ScopedAStatus.ok, ParameterSpecific.dynamicsProcessing
        (DynamicsProcessing.engineArchitecture c.engineArchitecture))
    | DynamicsProcessingTag.preEq =>
      (ScopedAStatus.ok, ParameterSpecific.dynamicsProcessing
        (DynamicsProcessing.preEq c.preEq))
    | DynamicsProcessingTag.postEq =>
      (ScopedAStatus.ok, ParameterSpecific.dynamicsProcessing
        (DynamicsProcessing.postEq c.postEq))
    | DynamicsProcessingTag.preEqBand =>
      (ScopedAStatus.ok, ParameterSpecific.dynamicsProcessing
        (DynamicsProcessing.preEqBand c.preEqBand))
    | DynamicsProcessingTag.postEqBand =>
      (ScopedAStatus.ok, ParameterSpecific.dynamicsProcessing
        (DynamicsProcessing.postEqBand c.postEqBand))
    | DynamicsProcessingTag.mbc =>
      (ScopedAStatus.ok, ParameterSpecific.dynamicsProcessing
        (DynamicsProcessing.mbc c.mbc))
    | DynamicsProcessingTag.mbcBand =>
      (ScopedAStatus.ok, ParameterSpecific.dynamicsProcessing
        (DynamicsProcessing.mbcBand c.mbcBand))
    | DynamicsProcessingTag.limiter =>
      (ScopedAStatus.ok, ParameterSpecific.dynamicsProcessing
        (DynamicsProcessing.limiter c.limiter))
    | DynamicsProcessingTag.inputGain =>
      (ScopedAStatus.ok, ParameterSpecific.dynamicsProcessing
        (DynamicsProcessing.inputGain c.inputGain))
    | DynamicsProcessingTag.vendorExtension =>
      (ScopedAStatus.exWithMessage BinderExceptionT.EX_ILLEGAL_ARGUMENT
        "DPVendorExtensionTagInWrongId", specific)

/-- `DynamicsProcessingImpl::getParameterSpecific`: rejects a null output
pointer, rejects a `Parameter::Id` that is not `dynamicsProcessingTag`,
rejects a `DynamicsProcessing::Id` carrying `vendorExtensionTag`, and
dispatches a `commonTag` to `getParameterDynamicsProcessing`.  The `specific`
output pointer is modelled as an `Option`; the second result is its final
pointee. -/
def getParameterSpecific (s : DynamicsProcessingImpl) (id : ParameterId)
    (specific : Option ParameterSpecific) :
    ScopedAStatus × Option ParameterSpecific :=
  match specific with
  | none =>
    (ScopedAStatus.exWithMessage BinderExceptionT.EX_NULL_POINTER "nullPtr",
     none)
  | some sp =>
    match id with
    | ParameterId.otherIdTag _ =>
      (ScopedAStatus.exWithMessage BinderExceptionT.EX_ILLEGAL_ARGUMENT
        "wrongIdTag", some sp)
    | ParameterId.dynamicsProcessingTag dpId =>
      match dpId with
      | DynamicsProcessingId.commonTag t =>
        let r := s.getParameterDynamicsProcessing t sp
        (r.1, some r.2)
      | DynamicsProcessingId.vendorExtensionTag _ =>
        (ScopedAStatus.exWithMessage BinderExceptionT.EX_ILLEGAL_ARGUMENT
          "DPVendorExtensionIdNotSupported", some sp)

/-- Modelled from the spec: `EffectImpl::setParameterCommon` (a base-class
method outside this file), which stores the common parameter in the effect
context and fails with `EX_NULL_POINTER` when no context exists. -/
def setParameterCommon (s : DynamicsProcessingImpl)
    (common : ParameterCommon) : ScopedAStatus × DynamicsProcessingImpl :=
  match s.mContext with
  | none =>
    (ScopedAStatus.exWithMessage BinderExceptionT.EX_NULL_POINTER
      "nullContext", s)
  | some c =>
    (ScopedAStatus.ok, { s with mContext := some { c with common := common } })

/-- `DynamicsProcessingImpl::open` (named `openImpl` because `open` is a Lean
keyword).  Rejects a configuration that is not 32-bit float on both sides,
returns ok immediately when the state is not `INIT`, then creates the
context, applies the common parameter and the specific parameter (or the
default engine architecture read back from the context when no specific
parameter is given), moves to `IDLE`, duplicates the FMQs, and creates the
worker thread (`createThread`, a base-class call outside this file, is
abstracted by `threadOk`).  The event list records the order of the
side-effecting steps. -/
def openImpl (s : DynamicsProcessingImpl) (common : ParameterCommon)
    (specific : Option ParameterSpecific) (threadOk : Bool) :
    ScopedAStatus × DynamicsProcessingImpl × List OpenEvent :=
  if common.input.base.format.pcm ≠ common.output.base.format.pcm ∨
      common.input.base.format.pcm ≠ PcmType.FLOAT_32_BIT then
    (ScopedAStatus.exWithMessage BinderExceptionT.EX_ILLEGAL_ARGUMENT
      "dataMustBe32BitsFloat", s, [])
  else if s.mState ≠ State.INIT then
    (ScopedAStatus.ok, s, [])
  else
    match s.createContext common with
    | (none, s1) =>
      (ScopedAStatus.exWithMessage BinderExceptionT.EX_NULL_POINTER
        "createContextFailed", s1, [OpenEvent.contextCreated])
    | (some ctx, s1) =>
      let rc := s1.setParameterCommon common
      match rc.1 with
      | ScopedAStatus.exWithMessage code msg =>
        (ScopedAStatus.exWithMessage code msg, rc.2,
         [OpenEvent.contextCreated, OpenEvent.commonApplied])
      | ScopedAStatus.ok =>
        let s2 := rc.2
        let sp := match specific with
          | some sp => sp
          | none =>
            ParameterSpecific.dynamicsProcessing
              (DynamicsProcessing.engineArchitecture
                (match s2.mContext with
                 | some c => c.engineArchitecture
                 | none => ctx.engineArchitecture))
        let rs := s2.setParameterSpecific sp
        match rs.1 with
        | ScopedAStatus.exWithMessage code msg =>
          (ScopedAStatus.exWithMessage code msg, rs.2,
           [OpenEvent.contextCreated, OpenEvent.commonApplied,
            OpenEvent.specificApplied])
        | ScopedAStatus.ok =>
          let s3 := { rs.2 with mState := State.IDLE }
          if threadOk then
            (ScopedAStatus.ok, s3,
             [OpenEvent.contextCreated, OpenEvent.commonApplied,
              OpenEvent.specificApplied, OpenEvent.stateToIdle,
              OpenEvent.fmqDuped, OpenEvent.workerCreated])
          else
            (ScopedAStatus.exWithMessage
              BinderExceptionT.EX_UNSUPPORTED_OPERATION "FailedToCreateWorker",
             s3,
             [OpenEvent.contextCreated, OpenEvent.commonApplied,
              OpenEvent.specificApplied, OpenEvent.stateToIdle,
              OpenEvent.fmqDuped])

end DynamicsProcessingImpl

/-- The return code of the context setter matching a `DynamicsProcessing`
union value's tag, applied to that value's payload; `none` for
`vendorExtension`, which has no matching setter. -/
def dpSetterRc (c : DynamicsProcessingContext) :
    DynamicsProcessing → Option RetCode
  | DynamicsProcessing.engineArchitecture v =>
    some (c.setEngineArchitecture v).1
  | DynamicsProcessing.preEq v => some (c.setPreEq v).1
  | DynamicsProcessing.postEq v => some (c.setPostEq v).1
  | DynamicsProcessing.preEqBand v => some (c.setPreEqBand v).1
  | DynamicsProcessing.postEqBand v => some (c.setPostEqBand v).1
  | DynamicsProcessing.mbc v => some (c.setMbc v).1
  | DynamicsProcessing.mbcBand v => some (c.setMbcBand v).1
  | DynamicsProcessing.limiter v => some (c.setLimiter v).1
  | DynamicsProcessing.inputGain v => some (c.setInputGain v).1
  | DynamicsProcessing.vendorExtension _ => none

/-- The context produced by the setter matching a `DynamicsProcessing` union
value's tag, applied to that value's payload; the context itself for
`vendorExtension`. -/
def dpSetterApply (c : DynamicsProcessingContext) :
    DynamicsProcessing → DynamicsProcessingContext
  | DynamicsProcessing.engineArchitecture v =>
    (c.setEngineArchitecture v).2
  | DynamicsProcessing.preEq v => (c.setPreEq v).2
  | DynamicsProcessing.postEq v => (c.setPostEq v).2
  | DynamicsProcessing.preEqBand v => (c.setPreEqBand v).2
  | DynamicsProcessing.postEqBand v => (c.setPostEqBand v).2
  | DynamicsProcessing.mbc v => (c.setMbc v).2
  | DynamicsProcessing.mbcBand v => (c.setMbcBand v).2
  | DynamicsProcessing.limiter v => (c.setLimiter v).2
  | DynamicsProcessing.inputGain v => (c.setInputGain v).2
  | DynamicsProcessing.vendorExtension _ => c

/-- A `DynamicsProcessing` payload has been applied to a context: the stored
parameter matching the payload's tag equals the payload. -/
def dpApplied : DynamicsProcessing → DynamicsProcessingContext → Prop
  | DynamicsProcessing.engineArchitecture v, c => c.engineArchitecture = v
  | DynamicsProcessing.preEq v, c => c.preEq = v
  | DynamicsProcessing.postEq v, c => c.postEq = v
  | DynamicsProcessing.preEqBand v, c => c.preEqBand = v
  | DynamicsProcessing.postEqBand v, c => c.postEqBand = v
  | DynamicsProcessing.mbc v, c => c.mbc = v
  | DynamicsProcessing.mbcBand v, c => c.mbcBand = v
  | DynamicsProcessing.limiter v, c => c.limiter = v
  | DynamicsProcessing.inputGain v, c => c.inputGain = v
  | DynamicsProcessing.vendorExtension _, _ => False

/-- Event `a` occurs strictly before event `b` in the trace `tr`. -/
def eventBefore (tr : List OpenEvent) (a b : OpenEvent) : Prop :=
  ∃ i j, i < j ∧ tr.get? i = some a ∧ tr.get? j = some b

/-- A well-formed 32-bit-float common parameter used as a concrete input. -/
def sampleCommon : ParameterCommon :=
  { session := 1, ioHandle := 7,
    input := { base := { sampleRate := 48000, channelMask := 3,
                         format := { pcm := PcmType.FLOAT_32_BIT } } },
    output := { base := { sampleRate := 48000, channelMask := 3,
                          format := { pcm := PcmType.FLOAT_32_BIT } } } }

/-- A common parameter whose input is 16-bit integer PCM, used as a concrete
bad input. -/
def sampleCommonInt16 : ParameterCommon :=
  { session := 1, ioHandle := 7,
    input := { base := { sampleRate := 48000, channelMask := 3,
                         format := { pcm := PcmType.INT_16_BIT } } },
    output := { base := { sampleRate := 48000, channelMask := 3,
                          format := { pcm := PcmType.FLOAT_32_BIT } } } }

/-- A concrete context used by witnesses. -/
def sampleCtx : DynamicsProcessingContext :=
  mkDynamicsProcessingContext sampleCommon

/-- A concrete effect instance in `INIT` state with no context. -/
def sampleInit : DynamicsProcessingImpl :=
  { mState := State.INIT, mContext := none }

/-- A concrete effect instance in `IDLE` state holding `sampleCtx`. -/
def sampleIdle : DynamicsProcessingImpl :=
  { mState := State.IDLE, mContext := some sampleCtx }

/-- The value of the context getter matching a common `DynamicsProcessing`
tag, wrapped as a `DynamicsProcessing` union value; `none` for
`vendorExtension`, which has no matching getter. -/
def dpGetterValue (c : DynamicsProcessingContext) :
    DynamicsProcessingTag → Option DynamicsProcessing
  | DynamicsProcessingTag.engineArchitecture =>
    some (DynamicsProcessing.engineArchitecture c.engineArchitecture)
  | DynamicsProcessingTag.preEq => some (DynamicsProcessing.preEq c.preEq)
  | DynamicsProcessingTag.postEq => some (DynamicsProcessing.postEq c.postEq)
  | DynamicsProcessingTag.preEqBand =>
    some (DynamicsProcessing.preEqBand c.preEqBand)
  | DynamicsProcessingTag.postEqBand =>
    some (DynamicsProcessing.postEqBand c.postEqBand)
  | DynamicsProcessingTag.mbc => some (DynamicsProcessing.mbc c.mbc)
  | DynamicsProcessingTag.mbcBand =>
    some (DynamicsProcessing.mbcBand c.mbcBand)
  | DynamicsProcessingTag.limiter =>
    some (DynamicsProcessing.limiter c.limiter)
  | DynamicsProcessingTag.inputGain =>
    some (DynamicsProcessing.inputGain c.inputGain)
  | DynamicsProcessingTag.vendorExtension => none

/-- Claim C1: `effectProcessImpl` returns exactly the status of
`mContext->lvmProcess(in, out, samples)` when the context is non-null (the
binding layer performs no processing of its own), and the status
`{EX_NULL_POINTER, 0, 0}` without calling the engine when the context is
null. -/
theorem effectProcessImpl_delegates (s : DynamicsProcessingImpl)
    (inBuf outBuf samples : Int) :
    (s.mContext = none →
      s.effectProcessImpl inBuf outBuf samples =
        { status := BinderExceptionT.EX_NULL_POINTER, fmqConsumed := 0,
          fmqProduced := 0 }) ∧
    (∀ c, s.mContext = some c →
      s.effectProcessImpl inBuf outBuf samples =
        c.lvmProcess inBuf outBuf samples) := by
  refine ⟨fun h => ?_, fun c h => ?_⟩ <;>
    simp [DynamicsProcessingImpl.effectProcessImpl, h]

/-- Witness for C1 at concrete inputs: a context-free instance and an
instance holding `sampleCtx`. -/
theorem effectProcessImpl_delegates_witness :
    sampleInit.effectProcessImpl 4 5 6 =
      { status := BinderExceptionT.EX_NULL_POINTER, fmqConsumed := 0,
        fmqProduced := 0 } ∧
    sampleIdle.effectProcessImpl 4 5 6 = sampleCtx.lvmProcess 4 5 6 :=
  ⟨(effectProcessImpl_delegates sampleInit 4 5 6).1 rfl,
   (effectProcessImpl_delegates sampleIdle 4 5 6).2 sampleCtx rfl⟩

/-- Claim C4: `createEffect` returns `EX_ILLEGAL_ARGUMENT` and creates no
instance when the uuid pointer is null, the pointed-to uuid differs from
`kDynamicsProcessingImplUUID`, or the output pointer is null; otherwise it
stores a newly created `DynamicsProcessingImpl` and returns `EX_NONE`. -/
theorem createEffect_uuid_and_output_checks (uuid : Option AudioUuid)
    (hasOut : Bool) :
    (uuid = none →
      createEffect uuid hasOut =
        (BinderExceptionT.EX_ILLEGAL_ARGUMENT, none)) ∧
    (∀ u, uuid = some u → u ≠ kDynamicsProcessingImplUUID →
      createEffect uuid hasOut =
        (BinderExceptionT.EX_ILLEGAL_ARGUMENT, none)) ∧
    (hasOut = false →
      createEffect uuid hasOut =
        (BinderExceptionT.EX_ILLEGAL_ARGUMENT, none)) ∧
    (uuid = some kDynamicsProcessingImplUUID → hasOut = true →
      createEffect uuid hasOut =
        (BinderExceptionT.EX_NONE, some newDynamicsProcessingImpl)) := by
  refine ⟨fun h => ?_, fun u h hu => ?_, fun h => ?_, fun h ho => ?_⟩
  · subst h; rfl
  · subst h; simp [createEffect, hu]
  · subst h
    cases uuid with
    | none => rfl
    | some u =>
      by_cases hu : u = kDynamicsProcessingImplUUID <;>
        simp [createEffect, hu]
  · subst h; subst ho; simp [createEffect]

/-- Witness for C4 at concrete inputs: a null uuid, a wrong uuid, a null
output pointer, and a fully valid call. -/
theorem createEffect_uuid_and_output_checks_witness :
    createEffect none true = (BinderExceptionT.EX_ILLEGAL_ARGUMENT, none) ∧
    createEffect (some kDynamicsProcessingTypeUUID) true =
      (BinderExceptionT.EX_ILLEGAL_ARGUMENT, none) ∧
    createEffect (some kDynamicsProcessingImplUUID) false =
      (BinderExceptionT.EX_ILLEGAL_ARGUMENT, none) ∧
    createEffect (some kDynamicsProcessingImplUUID) true =
      (BinderExceptionT.EX_NONE, some newDynamicsProcessingImpl) :=
  ⟨(createEffect_uuid_and_output_checks none true).1 rfl,
   (createEffect_uuid_and_output_checks (some kDynamicsProcessingTypeUUID)
      true).2.1 kDynamicsProcessingTypeUUID rfl (by decide),
   (createEffect_uuid_and_output_checks (some kDynamicsProcessingImplUUID)
      false).2.2.1 rfl,
   (createEffect_uuid_and_output_checks (some kDynamicsProcessingImplUUID)
      true).2.2.2 rfl rfl⟩

/-- Claim C5: `queryEffect` returns `EX_ILLEGAL_ARGUMENT` exactly when the
uuid pointer is null or the pointed-to uuid differs from
`kDynamicsProcessingImplUUID`; otherwise it writes
`DynamicsProcessingImpl::kDescriptor` (name "DynamicsProcessing", cutoff
range 220 to 20000) into `*_aidl_return` and returns `EX_NONE`. -/
theorem queryEffect_uuid_check (uuid : Option AudioUuid) :
    ((queryEffect uuid).1 = BinderExceptionT.EX_ILLEGAL_ARGUMENT ↔
      uuid ≠ some kDynamicsProcessingImplUUID) ∧
    (uuid = some kDynamicsProcessingImplUUID →
      queryEffect uuid = (BinderExceptionT.EX_NONE, some kDescriptor)) ∧
    kDescriptor.common.name = "DynamicsProcessing" ∧
    kDescriptor.capability =
      Capability.dynamicsProcessing
        { minCutOffFreq := 220, maxCutOffFreq := 20000 } := by
  refine ⟨?_, fun h => ?_, rfl, rfl⟩
  · cases uuid with
    | none => simp [queryEffect]
    | some u =>
      by_cases hu : u = kDynamicsProcessingImplUUID <;>
        simp [queryEffect, hu]
  · subst h; simp [queryEffect]

/-- Witness for C5 at concrete inputs: the matching uuid and a wrong uuid. -/
theorem queryEffect_uuid_check_witness :
    queryEffect (some kDynamicsProcessingImplUUID) =
      (BinderExceptionT.EX_NONE, some kDescriptor) ∧
    ((queryEffect (some kDynamicsProcessingTypeUUID)).1 =
      BinderExceptionT.EX_ILLEGAL_ARGUMENT ↔
      some kDynamicsProcessingTypeUUID ≠ some kDynamicsProcessingImplUUID) ∧
    kDescriptor.common.name = "DynamicsProcessing" :=
  ⟨(queryEffect_uuid_check (some kDynamicsProcessingImplUUID)).2.1 rfl,
   (queryEffect_uuid_check (some kDynamicsProcessingTypeUUID)).1,
   (queryEffect_uuid_check none).2.2.1⟩

/-- Claim C8: with an input pcm type differing from the output pcm type, or
an input pcm type other than `FLOAT_32_BIT`, `open` returns
`EX_ILLEGAL_ARGUMENT` before any state change, leaving the state and context
exactly as they were, in every starting state. -/
theorem openImpl_rejects_non_float (s : DynamicsProcessingImpl)
    (common : ParameterCommon) (specific : Option ParameterSpecific)
    (threadOk : Bool) :
    common.input.base.format.pcm ≠ common.output.base.format.pcm ∨
      common.input.base.format.pcm ≠ PcmType.FLOAT_32_BIT →
    s.openImpl common specific threadOk =
      (ScopedAStatus.exWithMessage BinderExceptionT.EX_ILLEGAL_ARGUMENT
        "dataMustBe32BitsFloat", s, []) := by
  intro h
  rw [DynamicsProcessingImpl.openImpl, if_pos h]

/-- Witness for C8 at a concrete input: a 16-bit-integer input
configuration against an `IDLE` instance. -/
theorem openImpl_rejects_non_float_witness :
    sampleIdle.openImpl sampleCommonInt16 none true =
      (ScopedAStatus.exWithMessage BinderExceptionT.EX_ILLEGAL_ARGUMENT
        "dataMustBe32BitsFloat", sampleIdle, []) :=
  openImpl_rejects_non_float sampleIdle sampleCommonInt16 none true
    (Or.inl (by decide))

/-- Claim C9: with a 32-bit-float configuration on both sides, calling
`open` in a state other than `INIT` returns ok immediately and changes
nothing: state, context and parameters are untouched. -/
theorem openImpl_noop_when_not_init (s : DynamicsProcessingImpl)
    (common : ParameterCommon) (specific : Option ParameterSpecific)
    (threadOk : Bool) :
    common.input.base.format.pcm = PcmType.FLOAT_32_BIT →
    common.output.base.format.pcm = PcmType.FLOAT_32_BIT →
    s.mState ≠ State.INIT →
    s.openImpl common specific threadOk = (ScopedAStatus.ok, s, []) := by
  intro h1 h2 h3
  rw [DynamicsProcessingImpl.openImpl, if_neg (by simp [h1, h2]),
    if_pos h3]

/-- Witness for C9 at a concrete input: a float configuration against an
`IDLE` instance. -/
theorem openImpl_noop_when_not_init_witness :
    sampleIdle.openImpl sampleCommon none true =
      (ScopedAStatus.ok, sampleIdle, []) :=
  openImpl_noop_when_not_init sampleIdle sampleCommon none true rfl rfl
    (by decide)

/-- Claim C10: `createContext` is idempotent: an existing context is
returned unchanged with no new context created; only with no context does
it build a fresh `DynamicsProcessingContext` from the common parameter; and
`releaseContext` returns `RetCode::SUCCESS` in every state, including with
no context. -/
theorem createContext_idempotent_release_success
    (s : DynamicsProcessingImpl) (common : ParameterCommon) :
    (∀ c, s.mContext = some c → s.createContext common = (some c, s)) ∧
    (s.mContext = none →
      s.createContext common =
        (some (mkDynamicsProcessingContext common),
         { s with mContext := some (mkDynamicsProcessingContext common) })) ∧
    (s.releaseContext).1 = RetCode.SUCCESS := by
  refine ⟨fun c h => ?_, fun h => ?_, ?_⟩
  · simp [DynamicsProcessingImpl.createContext, h]
  · simp [DynamicsProcessingImpl.createContext, h]
  · cases h : s.mContext <;>
      simp [DynamicsProcessingImpl.releaseContext, h]

/-- Witness for C10 at concrete inputs: an instance that already holds
`sampleCtx` and one with no context. -/
theorem createContext_idempotent_release_success_witness :
    sampleIdle.createContext sampleCommonInt16 = (some sampleCtx, sampleIdle) ∧
    sampleInit.createContext sampleCommon =
      (some (mkDynamicsProcessingContext sampleCommon),
       { sampleInit with
          mContext := some (mkDynamicsProcessingContext sampleCommon) }) ∧
    (sampleInit.releaseContext).1 = RetCode.SUCCESS :=
  ⟨(createContext_idempotent_release_success sampleIdle sampleCommonInt16).1
      sampleCtx rfl,
   (createContext_idempotent_release_success sampleInit sampleCommon).2.1 rfl,
   (createContext_idempotent_release_success sampleInit sampleCommon).2.2⟩

/-- Claim C2: `setParameterSpecific` rejects a non-`dynamicsProcessing`
union with `EX_ILLEGAL_ARGUMENT`, rejects a null context with
`EX_NULL_POINTER`, forwards the inner tag's payload to exactly the matching
context setter with ok exactly when that setter returns `RetCode::SUCCESS`
and `EX_ILLEGAL_ARGUMENT` otherwise, and always rejects `vendorExtension`
with `EX_ILLEGAL_ARGUMENT`. -/
theorem setParameterSpecific_forwards (s : DynamicsProcessingImpl)
    (sp : ParameterSpecific) :
    (∀ n, sp = ParameterSpecific.otherSpecific n →
      (s.setParameterSpecific sp).1 =
        ScopedAStatus.exWithMessage BinderExceptionT.EX_ILLEGAL_ARGUMENT
          "EffectNotSupported") ∧
    (∀ p, sp = ParameterSpecific.dynamicsProcessing p → s.mContext = none →
      (s.setParameterSpecific sp).1 =
        ScopedAStatus.exWithMessage BinderExceptionT.EX_NULL_POINTER
          "nullContext") ∧
    (∀ p c, sp = ParameterSpecific.dynamicsProcessing p →
      s.mContext = some c →
      (∀ v, p = DynamicsProcessing.vendorExtension v →
        (s.setParameterSpecific sp).1 =
          ScopedAStatus.exWithMessage BinderExceptionT.EX_ILLEGAL_ARGUMENT
            "DPVendorExtensionTagNotSupported") ∧
      (∀ rc, dpSetterRc c p = some rc →
        (s.setParameterSpecific sp).2.mContext = some (dpSetterApply c p) ∧
        ((s.setParameterSpecific sp).1 = ScopedAStatus.ok ↔
          rc = RetCode.SUCCESS) ∧
        (rc ≠ RetCode.SUCCESS →
          ∃ m, (s.setParameterSpecific sp).1 =
            ScopedAStatus.exWithMessage
              BinderExceptionT.EX_ILLEGAL_ARGUMENT m))) := by
  refine ⟨fun n h => ?_, fun p h hc => ?_, fun p c h hc => ?_⟩
  · subst h; rfl
  · subst h; simp [DynamicsProcessingImpl.setParameterSpecific, hc]
  · subst h
    refine ⟨fun v hv => ?_, fun rc hrc => ?_⟩
    · subst hv; simp [DynamicsProcessingImpl.setParameterSpecific, hc]
    · cases p with
      | vendorExtension v => simp [dpSetterRc] at hrc
      | engineArchitecture v =>
        simp only [dpSetterRc, Option.some.injEq] at hrc
        subst hrc
        by_cases hs : (c.setEngineArchitecture v).1 = RetCode.SUCCESS <;>
          simp [DynamicsProcessingImpl.setParameterSpecific, hc,
            dpSetterApply, hs]
      | preEq v =>
        simp only [dpSetterRc, Option.some.injEq] at hrc
        subst hrc
        by_cases hs : (c.setPreEq v).1 = RetCode.SUCCESS <;>
          simp [DynamicsProcessingImpl.setParameterSpecific, hc,
            dpSetterApply, hs]
      | postEq v =>
        simp only [dpSetterRc, Option.some.injEq] at hrc
        subst hrc
        by_cases hs : (c.setPostEq v).1 = RetCode.SUCCESS <;>
          simp [DynamicsProcessingImpl.setParameterSpecific, hc,
            dpSetterApply, hs]
      | preEqBand v =>
        simp only [dpSetterRc, Option.some.injEq] at hrc
        subst hrc
        by_cases hs : (c.setPreEqBand v).1 = RetCode.SUCCESS <;>
          simp [DynamicsProcessingImpl.setParameterSpecific, hc,
            dpSetterApply, hs]
      | postEqBand v =>
        simp only [dpSetterRc, Option.some.injEq] at hrc
        subst hrc
        by_cases hs : (c.setPostEqBand v).1 = RetCode.SUCCESS <;>
          simp [DynamicsProcessingImpl.setParameterSpecific, hc,
            dpSetterApply, hs]
      | mbc v =>
        simp only [dpSetterRc, Option.some.injEq] at hrc
        subst hrc
        by_cases hs : (c.setMbc v).1 = RetCode.SUCCESS <;>
          simp [DynamicsProcessingImpl.setParameterSpecific, hc,
            dpSetterApply, hs]
      | mbcBand v =>
        simp only [dpSetterRc, Option.some.injEq] at hrc
        subst hrc
        by_cases hs : (c.setMbcBand v).1 = RetCode.SUCCESS <;>
          simp [DynamicsProcessingImpl.setParameterSpecific, hc,
            dpSetterApply, hs]
      | limiter v =>
        simp only [dpSetterRc, Option.some.injEq] at hrc
        subst hrc
        by_cases hs : (c.setLimiter v).1 = RetCode.SUCCESS <;>
          simp [DynamicsProcessingImpl.setParameterSpecific, hc,
            dpSetterApply, hs]
      | inputGain v =>
        simp only [dpSetterRc, Option.some.injEq] at hrc
        subst hrc
        by_cases hs : (c.setInputGain v).1 = RetCode.SUCCESS <;>
          simp [DynamicsProcessingImpl.setParameterSpecific, hc,
            dpSetterApply, hs]

/-- Witness for C2 at concrete inputs: a foreign union value against
`sampleIdle`, a null-context call, a vendor-extension payload, and a
`preEq` payload whose setter succeeds. -/
theorem setParameterSpecific_forwards_witness :
    (sampleIdle.setParameterSpecific (ParameterSpecific.otherSpecific 2)).1 =
      ScopedAStatus.exWithMessage BinderExceptionT.EX_ILLEGAL_ARGUMENT
        "EffectNotSupported" ∧
    (sampleInit.setParameterSpecific
      (ParameterSpecific.dynamicsProcessing
        (DynamicsProcessing.inputGain []))).1 =
      ScopedAStatus.exWithMessage BinderExceptionT.EX_NULL_POINTER
        "nullContext" ∧
    (sampleIdle.setParameterSpecific
      (ParameterSpecific.dynamicsProcessing
        (DynamicsProcessing.vendorExtension { val := 0 }))).1 =
      ScopedAStatus.exWithMessage BinderExceptionT.EX_ILLEGAL_ARGUMENT
        "DPVendorExtensionTagNotSupported" ∧
    ((sampleIdle.setParameterSpecific
      (ParameterSpecific.dynamicsProcessing
        (DynamicsProcessing.preEq [{ val := 9 }]))).1 = ScopedAStatus.ok ↔
      RetCode.SUCCESS = RetCode.SUCCESS) :=
  ⟨(setParameterSpecific_forwards sampleIdle
      (ParameterSpecific.otherSpecific 2)).1 2 rfl,
   (setParameterSpecific_forwards sampleInit
      (ParameterSpecific.dynamicsProcessing
        (DynamicsProcessing.inputGain []))).2.1
      (DynamicsProcessing.inputGain []) rfl rfl,
   ((setParameterSpecific_forwards sampleIdle
      (ParameterSpecific.dynamicsProcessing
        (DynamicsProcessing.vendorExtension { val := 0 }))).2.2
      (DynamicsProcessing.vendorExtension { val := 0 }) sampleCtx rfl
      rfl).1 { val := 0 } rfl,
   (((setParameterSpecific_forwards sampleIdle
      (ParameterSpecific.dynamicsProcessing
        (DynamicsProcessing.preEq [{ val := 9 }]))).2.2
      (DynamicsProcessing.preEq [{ val := 9 }]) sampleCtx rfl
      rfl).2 RetCode.SUCCESS rfl).2.1⟩

/-- Claim C3: with a non-null context, `getParameterDynamicsProcessing`
writes into `*specific` exactly the matching context getter's value wrapped
under the `dynamicsProcessing` tag and returns ok, and for `vendorExtension`
returns `EX_ILLEGAL_ARGUMENT` leaving `*specific` unchanged. -/
theorem getParameterDynamicsProcessing_forwards (s : DynamicsProcessingImpl)
    (c : DynamicsProcessingContext) (tag : DynamicsProcessingTag)
    (spIn : ParameterSpecific) (hc : s.mContext = some c) :
    (∀ v, dpGetterValue c tag = some v →
      s.getParameterDynamicsProcessing tag spIn =
        (ScopedAStatus.ok, ParameterSpecific.dynamicsProcessing v)) ∧
    (tag = DynamicsProcessingTag.vendorExtension →
      s.getParameterDynamicsProcessing tag spIn =
        (ScopedAStatus.exWithMessage BinderExceptionT.EX_ILLEGAL_ARGUMENT
          "DPVendorExtensionTagInWrongId", spIn)) := by
  refine ⟨fun v hv => ?_, fun h => ?_⟩
  · cases tag <;> simp only [dpGetterValue, Option.some.injEq,
      reduceCtorEq] at hv <;> subst hv <;>
      simp [DynamicsProcessingImpl.getParameterDynamicsProcessing, hc]
  · subst h
    simp [DynamicsProcessingImpl.getParameterDynamicsProcessing, hc]

/-- Witness for C3 at concrete inputs: the `mbc` tag and the
`vendorExtension` tag against `sampleIdle`. -/
theorem getParameterDynamicsProcessing_forwards_witness :
    sampleIdle.getParameterDynamicsProcessing DynamicsProcessingTag.mbc
        (ParameterSpecific.otherSpecific 0) =
      (ScopedAStatus.ok, ParameterSpecific.dynamicsProcessing
        (DynamicsProcessing.mbc sampleCtx.mbc)) ∧
    sampleIdle.getParameterDynamicsProcessing
        DynamicsProcessingTag.vendorExtension
        (ParameterSpecific.otherSpecific 0) =
      (ScopedAStatus.exWithMessage BinderExceptionT.EX_ILLEGAL_ARGUMENT
        "DPVendorExtensionTagInWrongId",
       ParameterSpecific.otherSpecific 0) :=
  ⟨(getParameterDynamicsProcessing_forwards sampleIdle sampleCtx
      DynamicsProcessingTag.mbc (ParameterSpecific.otherSpecific 0) rfl).1
      (DynamicsProcessing.mbc sampleCtx.mbc) rfl,
   (getParameterDynamicsProcessing_forwards sampleIdle sampleCtx
      DynamicsProcessingTag.vendorExtension
      (ParameterSpecific.otherSpecific 0) rfl).2 rfl⟩

/-- Claim C7: `getParameterSpecific` fails with `EX_NULL_POINTER` on a null
output pointer, with `EX_ILLEGAL_ARGUMENT` on a `Parameter::Id` whose tag
is not `dynamicsProcessingTag` and on a `DynamicsProcessing::Id` carrying
`vendorExtensionTag`; only a `commonTag` id is dispatched to
`getParameterDynamicsProcessing`. -/
theorem getParameterSpecific_dispatch (s : DynamicsProcessingImpl)
    (id : ParameterId) (specific : Option ParameterSpecific) :
    (specific = none →
      (s.getParameterSpecific id specific).1 =
        ScopedAStatus.exWithMessage BinderExceptionT.EX_NULL_POINTER
          "nullPtr") ∧
    (∀ n sp, id = ParameterId.otherIdTag n → specific = some sp →
      s.getParameterSpecific id specific =
        (ScopedAStatus.exWithMessage BinderExceptionT.EX_ILLEGAL_ARGUMENT
          "wrongIdTag", some sp)) ∧
    (∀ v sp, id = ParameterId.dynamicsProcessingTag
        (DynamicsProcessingId.vendorExtensionTag v) → specific = some sp →
      s.getParameterSpecific id specific =
        (ScopedAStatus.exWithMessage BinderExceptionT.EX_ILLEGAL_ARGUMENT
          "DPVendorExtensionIdNotSupported", some sp)) ∧
    (∀ t sp, id = ParameterId.dynamicsProcessingTag
        (DynamicsProcessingId.commonTag t) → specific = some sp →
      s.getParameterSpecific id specific =
        ((s.getParameterDynamicsProcessing t sp).1,
         some (s.getParameterDynamicsProcessing t sp).2)) := by
  refine ⟨fun h => ?_, fun n sp h hs => ?_, fun v sp h hs => ?_,
    fun t sp h hs => ?_⟩ <;> subst h <;> first
    | rfl
    | (subst hs; rfl)

/-- Witness for C7 at concrete inputs: a null output pointer, a foreign id
tag, a vendor-extension id and a common-tag id against `sampleIdle`. -/
theorem getParameterSpecific_dispatch_witness :
    (sampleIdle.getParameterSpecific
      (ParameterId.dynamicsProcessingTag
        (DynamicsProcessingId.commonTag DynamicsProcessingTag.limiter))
      none).1 =
      ScopedAStatus.exWithMessage BinderExceptionT.EX_NULL_POINTER
        "nullPtr" ∧
    sampleIdle.getParameterSpecific (ParameterId.otherIdTag 3)
      (some (ParameterSpecific.otherSpecific 0)) =
      (ScopedAStatus.exWithMessage BinderExceptionT.EX_ILLEGAL_ARGUMENT
        "wrongIdTag", some (ParameterSpecific.otherSpecific 0)) ∧
    sampleIdle.getParameterSpecific
      (ParameterId.dynamicsProcessingTag
        (DynamicsProcessingId.vendorExtensionTag { val := 1 }))
      (some (ParameterSpecific.otherSpecific 0)) =
      (ScopedAStatus.exWithMessage BinderExceptionT.EX_ILLEGAL_ARGUMENT
        "DPVendorExtensionIdNotSupported",
       some (ParameterSpecific.otherSpecific 0)) ∧
    sampleIdle.getParameterSpecific
      (ParameterId.dynamicsProcessingTag
        (DynamicsProcessingId.commonTag DynamicsProcessingTag.limiter))
      (some (ParameterSpecific.otherSpecific 0)) =
      ((sampleIdle.getParameterDynamicsProcessing
          DynamicsProcessingTag.limiter
          (ParameterSpecific.otherSpecific 0)).1,
       some (sampleIdle.getParameterDynamicsProcessing
          DynamicsProcessingTag.limiter
          (ParameterSpecific.otherSpecific 0)).2) :=
  ⟨(getParameterSpecific_dispatch sampleIdle
      (ParameterId.dynamicsProcessingTag
        (DynamicsProcessingId.commonTag DynamicsProcessingTag.limiter))
      none).1 rfl,
   (getParameterSpecific_dispatch sampleIdle (ParameterId.otherIdTag 3)
      (some (ParameterSpecific.otherSpecific 0))).2.1 3
      (ParameterSpecific.otherSpecific 0) rfl rfl,
   (getParameterSpecific_dispatch sampleIdle
      (ParameterId.dynamicsProcessingTag
        (DynamicsProcessingId.vendorExtensionTag { val := 1 }))
      (some (ParameterSpecific.otherSpecific 0))).2.2.1 { val := 1 }
      (ParameterSpecific.otherSpecific 0) rfl rfl,
   (getParameterSpecific_dispatch sampleIdle
      (ParameterId.dynamicsProcessingTag
        (DynamicsProcessingId.commonTag DynamicsProcessingTag.limiter))
      (some (ParameterSpecific.otherSpecific 0))).2.2.2
      DynamicsProcessingTag.limiter (ParameterSpecific.otherSpecific 0)
      rfl rfl⟩

/-- Every context setter leaves the stored common parameter untouched. -/
theorem dpSetterApply_common (c : DynamicsProcessingContext)
    (p : DynamicsProcessing) : (dpSetterApply c p).common = c.common := by
  cases p <;>
    simp only [dpSetterApply, DynamicsProcessingContext.setEngineArchitecture,
      DynamicsProcessingContext.setPreEq, DynamicsProcessingContext.setPostEq,
      DynamicsProcessingContext.setPreEqBand,
      DynamicsProcessingContext.setPostEqBand,
      DynamicsProcessingContext.setMbc, DynamicsProcessingContext.setMbcBand,
      DynamicsProcessingContext.setLimiter,
      DynamicsProcessingContext.setInputGain] <;>
    split <;> rfl

/-- When `setParameterSpecific` succeeds on a `dynamicsProcessing` payload
against context `c`, the new context is exactly the matching setter's
output, that payload is applied in it, and the state field is untouched. -/
theorem setParameterSpecific_ok_ctx (s : DynamicsProcessingImpl)
    (p : DynamicsProcessing) (c : DynamicsProcessingContext)
    (hc : s.mContext = some c)
    (hok : (s.setParameterSpecific
      (ParameterSpecific.dynamicsProcessing p)).1 = ScopedAStatus.ok) :
    (s.setParameterSpecific
      (ParameterSpecific.dynamicsProcessing p)).2.mContext =
        some (dpSetterApply c p) ∧
    dpApplied p (dpSetterApply c p) ∧
    (s.setParameterSpecific
      (ParameterSpecific.dynamicsProcessing p)).2.mState = s.mState := by
  cases p with
  | vendorExtension v =>
    simp [DynamicsProcessingImpl.setParameterSpecific, hc] at hok
  | engineArchitecture v =>
    by_cases hs : (c.setEngineArchitecture v).1 = RetCode.SUCCESS
    · refine ⟨?_, ?_, ?_⟩ <;>
        simp [DynamicsProcessingImpl.setParameterSpecific, hc, hs,
          dpSetterApply, dpApplied, DynamicsProcessingContext.setEngineArchitecture] <;>
        simp [DynamicsProcessingContext.setEngineArchitecture] at hs <;>
        simp [hs]
    · simp [DynamicsProcessingImpl.setParameterSpecific, hc, hs] at hok
  | preEq v =>
    by_cases hs : (c.setPreEq v).1 = RetCode.SUCCESS
    · refine ⟨?_, ?_, ?_⟩ <;>
        simp [DynamicsProcessingImpl.setParameterSpecific, hc, hs,
          dpSetterApply, dpApplied, DynamicsProcessingContext.setPreEq] <;>
        simp [DynamicsProcessingContext.setPreEq] at hs <;>
        simp [hs]
    · simp [DynamicsProcessingImpl.setParameterSpecific, hc, hs] at hok
  | postEq v =>
    by_cases hs : (c.setPostEq v).1 = RetCode.SUCCESS
    · refine ⟨?_, ?_, ?_⟩ <;>
        simp [DynamicsProcessingImpl.setParameterSpecific, hc, hs,
          dpSetterApply, dpApplied, DynamicsProcessingContext.setPostEq] <;>
        simp [DynamicsProcessingContext.setPostEq] at hs <;>
        simp [hs]
    · simp [DynamicsProcessingImpl.setParameterSpecific, hc, hs] at hok
  | preEqBand v =>
    by_cases hs : (c.setPreEqBand v).1 = RetCode.SUCCESS
    · refine ⟨?_, ?_, ?_⟩ <;>
        simp [DynamicsProcessingImpl.setParameterSpecific, hc, hs,
          dpSetterApply, dpApplied, DynamicsProcessingContext.setPreEqBand] <;>
        simp [DynamicsProcessingContext.setPreEqBand] at hs <;>
        simp [hs]
    · simp [DynamicsProcessingImpl.setParameterSpecific, hc, hs] at hok
  | postEqBand v =>
    by_cases hs : (c.setPostEqBand v).1 = RetCode.SUCCESS
    · refine ⟨?_, ?_, ?_⟩ <;>
        simp [DynamicsProcessingImpl.setParameterSpecific, hc, hs,
          dpSetterApply, dpApplied, DynamicsProcessingContext.setPostEqBand] <;>
        simp [DynamicsProcessingContext.setPostEqBand] at hs <;>
        simp [hs]
    · simp [DynamicsProcessingImpl.setParameterSpecific, hc, hs] at hok
  | mbc v =>
    by_cases hs : (c.setMbc v).1 = RetCode.SUCCESS
    · refine ⟨?_, ?_, ?_⟩ <;>
        simp [DynamicsProcessingImpl.setParameterSpecific, hc, hs,
          dpSetterApply, dpApplied, DynamicsProcessingContext.setMbc] <;>
        simp [DynamicsProcessingContext.setMbc] at hs <;>
        simp [hs]
    · simp [DynamicsProcessingImpl.setParameterSpecific, hc, hs] at hok
  | mbcBand v =>
    by_cases hs : (c.setMbcBand v).1 = RetCode.SUCCESS
    · refine ⟨?_, ?_, ?_⟩ <;>
        simp [DynamicsProcessingImpl.setParameterSpecific, hc, hs,
          dpSetterApply, dpApplied, DynamicsProcessingContext.setMbcBand] <;>
        simp [DynamicsProcessingContext.setMbcBand] at hs <;>
        simp [hs]
    · simp [DynamicsProcessingImpl.setParameterSpecific, hc, hs] at hok
  | limiter v =>
    by_cases hs : (c.setLimiter v).1 = RetCode.SUCCESS
    · refine ⟨?_, ?_, ?_⟩ <;>
        simp [DynamicsProcessingImpl.setParameterSpecific, hc, hs,
          dpSetterApply, dpApplied, DynamicsProcessingContext.setLimiter] <;>
        simp [DynamicsProcessingContext.setLimiter] at hs <;>
        simp [hs]
    · simp [DynamicsProcessingImpl.setParameterSpecific, hc, hs] at hok
  | inputGain v =>
    by_cases hs : (c.setInputGain v).1 = RetCode.SUCCESS
    · refine ⟨?_, ?_, ?_⟩ <;>
        simp [DynamicsProcessingImpl.setParameterSpecific, hc, hs,
          dpSetterApply, dpApplied, DynamicsProcessingContext.setInputGain] <;>
        simp [DynamicsProcessingContext.setInputGain] at hs <;>
        simp [hs]
    · simp [DynamicsProcessingImpl.setParameterSpecific, hc, hs] at hok

/-- Claim C6: a successful `open` from `INIT` with a valid 32-bit-float
configuration moves the state to `IDLE` with a context present, the common
parameter and the specific payload applied to the context, the applications
ordered before the state change in the step trace; and `releaseContext` on a
non-null context disables it and resets its buffer before releasing it. -/
theorem openImpl_lifecycle (s : DynamicsProcessingImpl)
    (common : ParameterCommon) (specific : Option ParameterSpecific)
    (threadOk : Bool) (s2 : DynamicsProcessingImpl) :
    (s.mState = State.INIT →
      (s.openImpl common specific threadOk).1 = ScopedAStatus.ok →
      ((s.openImpl common specific threadOk).2.1.mState = State.IDLE ∧
       (∃ c, (s.openImpl common specific threadOk).2.1.mContext = some c ∧
         c.common = common ∧
         (∀ p, specific = some (ParameterSpecific.dynamicsProcessing p) →
           dpApplied p c)) ∧
       eventBefore (s.openImpl common specific threadOk).2.2
         OpenEvent.commonApplied OpenEvent.stateToIdle ∧
       eventBefore (s.openImpl common specific threadOk).2.2
         OpenEvent.specificApplied OpenEvent.stateToIdle)) ∧
    (∀ c, s2.mContext = some c →
      s2.releaseContext =
        (RetCode.SUCCESS, { s2 with mContext := none },
         some (c.disable.resetBuffer),
         [ReleaseEvent.ctxDisabled, ReleaseEvent.ctxBufferReset,
          ReleaseEvent.ctxReleased]) ∧
      (c.disable.resetBuffer).enabled = false ∧
      (c.disable.resetBuffer).bufferCleared = true) := by
  refine ⟨fun hInit hOk => ?_, fun c h => ?_⟩
  · by_cases hpcm : (common.input.base.format.pcm ≠
        common.output.base.format.pcm ∨
        common.input.base.format.pcm ≠ PcmType.FLOAT_32_BIT)
    · rw [DynamicsProcessingImpl.openImpl, if_pos hpcm] at hOk
      exact absurd hOk (by simp)
    · have hni : ¬ s.mState ≠ State.INIT := fun hn => hn hInit
      obtain ⟨ctx, s1, hcc, hs1⟩ : ∃ ctx s1,
          s.createContext common = (some ctx, s1) ∧ s1.mContext = some ctx := by
        cases hmc : s.mContext with
        | none =>
          exact ⟨mkDynamicsProcessingContext common,
            { s with mContext := some (mkDynamicsProcessingContext common) },
            by simp [DynamicsProcessingImpl.createContext, hmc], rfl⟩
        | some c0 =>
          exact ⟨c0, s,
            by simp [DynamicsProcessingImpl.createContext, hmc], hmc⟩
      rw [DynamicsProcessingImpl.openImpl, if_neg hpcm, if_neg hni, hcc]
        at hOk ⊢
      simp only [DynamicsProcessingImpl.setParameterCommon, hs1] at hOk ⊢
      cases specific with
      | none =>
        rcases hrs : ({ s1 with
            mContext := some { ctx with common := common } }
            : DynamicsProcessingImpl).setParameterSpecific
            (ParameterSpecific.dynamicsProcessing
              (DynamicsProcessing.engineArchitecture
                ctx.engineArchitecture)) with ⟨st, s3⟩
        have hok1 : (({ s1 with
            mContext := some { ctx with common := common } }
            : DynamicsProcessingImpl).setParameterSpecific
            (ParameterSpecific.dynamicsProcessing
              (DynamicsProcessing.engineArchitecture
                ctx.engineArchitecture))).1 = st := by rw [hrs]
        simp only [hrs] at hOk ⊢
        cases st with
        | exWithMessage code msg => exact absurd hOk (by simp)
        | ok =>
          cases threadOk with
          | false => exact absurd hOk (by simp)
          | true =>
            have hlem := setParameterSpecific_ok_ctx
              { s1 with mContext := some { ctx with common := common } }
              (DynamicsProcessing.engineArchitecture ctx.engineArchitecture)
              { ctx with common := common } rfl hok1
            rw [hrs] at hlem
            refine ⟨rfl,
              ⟨dpSetterApply { ctx with common := common }
                (DynamicsProcessing.engineArchitecture
                  ctx.engineArchitecture), ?_, ?_, ?_⟩, ?_, ?_⟩
            · exact hlem.1
            · rw [dpSetterApply_common]
            · intro p hp; exact absurd hp (by simp)
            · exact ⟨1, 3, by norm_num, rfl, rfl⟩
            · exact ⟨2, 3, by norm_num, rfl, rfl⟩
      | some spv =>
        cases spv with
        | otherSpecific n =>
          exact absurd hOk
            (by simp [DynamicsProcessingImpl.setParameterSpecific])
        | dynamicsProcessing p =>
          rcases hrs : ({ s1 with
              mContext := some { ctx with common := common } }
              : DynamicsProcessingImpl).setParameterSpecific
              (ParameterSpecific.dynamicsProcessing p) with ⟨st, s3⟩
          have hok1 : (({ s1 with
              mContext := some { ctx with common := common } }
              : DynamicsProcessingImpl).setParameterSpecific
              (ParameterSpecific.dynamicsProcessing p)).1 = st := by
            rw [hrs]
          simp only [hrs] at hOk ⊢
          cases st with
          | exWithMessage code msg => exact absurd hOk (by simp)
          | ok =>
            cases threadOk with
            | false => exact absurd hOk (by simp)
            | true =>
              have hlem := setParameterSpecific_ok_ctx
                { s1 with mContext := some { ctx with common := common } }
                p { ctx with common := common } rfl hok1
              rw [hrs] at hlem
              refine ⟨rfl,
                ⟨dpSetterApply { ctx with common := common } p,
                  ?_, ?_, ?_⟩, ?_, ?_⟩
              · exact hlem.1
              · rw [dpSetterApply_common]
              · intro p' hp'
                have hpp : p = p' := by
                  injection hp' with hp''
                  injection hp''
                subst hpp
                exact hlem.2.1
              · exact ⟨1, 3, by norm_num, rfl, rfl⟩
              · exact ⟨2, 3, by norm_num, rfl, rfl⟩
  · exact ⟨by simp [DynamicsProcessingImpl.releaseContext, h], rfl, rfl⟩

/-- Witness for C6 at concrete inputs: a successful default `open` from
`sampleInit` and a `releaseContext` on `sampleIdle`. -/
theorem openImpl_lifecycle_witness :
    ((sampleInit.openImpl sampleCommon none true).2.1.mState = State.IDLE ∧
     (∃ c, (sampleInit.openImpl sampleCommon none true).2.1.mContext =
         some c ∧
       c.common = sampleCommon ∧
       (∀ p, (none : Option ParameterSpecific) =
           some (ParameterSpecific.dynamicsProcessing p) →
         dpApplied p c)) ∧
     eventBefore (sampleInit.openImpl sampleCommon none true).2.2
       OpenEvent.commonApplied OpenEvent.stateToIdle ∧
     eventBefore (sampleInit.openImpl sampleCommon none true).2.2
       OpenEvent.specificApplied OpenEvent.stateToIdle) ∧
    (sampleIdle.releaseContext =
      (RetCode.SUCCESS, { sampleIdle with mContext := none },
       some (sampleCtx.disable.resetBuffer),
       [ReleaseEvent.ctxDisabled, ReleaseEvent.ctxBufferReset,
        ReleaseEvent.ctxReleased]) ∧
     (sampleCtx.disable.resetBuffer).enabled = false ∧
     (sampleCtx.disable.resetBuffer).bufferCleared = true) :=
  ⟨(openImpl_lifecycle sampleInit sampleCommon none true sampleIdle).1
      rfl rfl,
   (openImpl_lifecycle sampleInit sampleCommon none true sampleIdle).2
      sampleCtx rfl⟩

end DynamicsProc
